import Mathlib

/-!
Verification of the configuration-resolution layer and the guarded database
lifecycle orchestrator of a Django backend starter project.

The Python sources are shallowly embedded as executable Lean definitions:

* `config/settings/schemas/environment.py`  → `EnvStateEnum`, `resolveEnvState`
* `config/settings/schemas/database.py`     → `BaseDatabaseConfig`, `withPrefixLoad`,
  `multiLoadDatabases`, `renderUrl`
* `config/settings/schemas/django.py`       → `validate_secret_key`
* `config/settings/schemas/utils.py`        → `factoryCall`, `factoryRun`
* `config/settings/schemas/registry.py`     → `ModuleGlobals`, `registryFromGlobals`,
  `reloadRegistry`
* `config/database_router.py`               → `allow_relation`, `allow_migrate`
* `devtools/commands/database/guards.py`    → `require_non_production`,
  confirmation-mismatch branch embedded in `dropBody`
* `devtools/commands/database/operations.py`→ `dropBody`/`handleDropExc`,
  `createBody`/`handleCreateExc`, `connectionFailureReport`
* `devtools/commands/database/setup.py`     → `setupBody`/`handleSetupExc`, `runFanOut`

Python exception semantics relevant here: `typer.Exit` derives from
`click.exceptions.Exit`, which derives from `RuntimeError`, hence from
`Exception`; `KeyboardInterrupt` derives from `BaseException` but not from
`Exception`; `psycopg.OperationalError` derives from `Exception`.  A bare
`except Exception` clause therefore catches `typer.Exit` but not
`KeyboardInterrupt`.  The inductive `PyExc` together with `isExceptionClass`
embeds exactly this classification.
-/

deriving instance DecidableEq for Except

/-- Environment states, from `EnvStateEnum` in `environment.py`. -/
inductive EnvStateEnum
  | development
  | production
deriving DecidableEq, Repr

/-- Function `is_production` from `guards.py`: the registry's environment state equals
`PRODUCTION`. The state is passed explicitly instead of read from the global
registry. -/
def is_production (env : EnvStateEnum) : Bool :=
  env == EnvStateEnum.production

/-- Outcome of a guard or command body: `.ok` for normal return, `.error e`
for a raised exception `e`. -/
abbrev PyResult := Except Nat Unit

/-- Function `require_non_production(operation_name, allow_in_production)` from
`guards.py`: raises `typer.Exit(code=1)` iff running in production without the
override flag; otherwise returns normally.  The exit code is carried in the
`Except` error. -/
def require_non_production (env : EnvStateEnum) (operationName : String)
    (allow_in_production : Bool) : PyResult :=
  if is_production env && !allow_in_production then
    Except.error 1
  else
    Except.ok ()

/-- The fixed set of Django system app labels (`django_system_apps` in
`database_router.py`). -/
def django_system_apps : List String :=
  ["admin", "auth", "contenttypes", "sessions", "messages", "staticfiles"]

/-- The repository's configured route map (`route_app_labels` in
`database_router.py`): empty in this codebase. -/
def route_app_labels : List (String × String) := []

/-- Lookup of an app label in a route map (Python `dict` access / `.get`). -/
def lookupRoute (m : List (String × String)) (label : String) : Option String :=
  (m.find? (fun p => p.1 == label)).map (fun p => p.2)

/-- The alias a label resolves to: `route_app_labels.get(label, "default")`,
as used by `allow_relation` (and by `db_for_read`/`db_for_write`). -/
def resolveAlias (m : List (String × String)) (label : String) : String :=
  (lookupRoute m label).getD "default"

/-- Method `AppDatabaseRouter.allow_relation` from `database_router.py`.  The Django
router contract allows returning `True`, `False`, or `None` (no opinion); the
embedding returns `Option Bool`, where `none` would model Python `None`.  The
implementation always returns `some`. -/
def allow_relation (m : List (String × String)) (label1 label2 : String) :
    Option Bool :=
  some (resolveAlias m label1 == resolveAlias m label2)

/-- Method `AppDatabaseRouter.allow_migrate` from `database_router.py`: system labels
migrate only on `default`; explicitly routed labels only on their mapped
alias; everything else only on `default`.  `Option Bool` as in
`allow_relation`. -/
def allow_migrate (m : List (String × String)) (db label : String) :
    Option Bool :=
  if label ∈ django_system_apps then
    some (db == "default")
  else
    match lookupRoute m label with
    | some target => some (db == target)
    | none => some (db == "default")

/-- C1: The production safety guard blocks (raising exit code 1, which is
nonzero) iff the environment is production and the override flag is unset;
with the override it allows in every environment, and in development it
always allows, for every operation name. -/
theorem guard_blocks_iff_production_without_override
    (env : EnvStateEnum) (op : String) (allow : Bool) :
    (require_non_production env op allow = Except.error 1 ↔
      env = EnvStateEnum.production ∧ allow = false) ∧
    (allow = true → require_non_production env op allow = Except.ok ()) ∧
    (env = EnvStateEnum.development →
      require_non_production env op allow = Except.ok ()) ∧
    (∀ c : Nat, require_non_production env op allow = Except.error c → c ≠ 0) := by
  cases env <;> cases allow <;>
    simp [require_non_production, is_production]

/-- C7: `allow_relation` never returns the router's "no opinion" value: for
every pair of labels it returns `some b` with `b = true` exactly when both
labels resolve to the same alias (route-map entry if present, else
`default`), and `b = false` in every other case. -/
theorem allow_relation_iff_same_alias
    (m : List (String × String)) (label1 label2 : String) :
    ∃ b : Bool, allow_relation m label1 label2 = some b ∧
      (b = true ↔ resolveAlias m label1 = resolveAlias m label2) ∧
      (b = false ↔ resolveAlias m label1 ≠ resolveAlias m label2) := by
  refine ⟨resolveAlias m label1 == resolveAlias m label2, rfl, ?_, ?_⟩ <;>
    simp [beq_iff_eq]

/-- C6: for every route map in which no system label is also explicitly
routed (true in this repository, where `route_app_labels` is empty), every
label has exactly one home alias: `allow_migrate db label` is `some true`
exactly at `db = home`, where `home` is `default` for system labels, the
mapped alias for routed labels, and `default` for every other label. -/
theorem allow_migrate_exactly_one_alias
    (m : List (String × String)) (label : String)
    (hdisj : ∀ l ∈ django_system_apps, lookupRoute m l = none) :
    ∃ home : String,
      (∀ db : String, allow_migrate m db label = some (db == home)) ∧
      (label ∈ django_system_apps → home = "default") ∧
      (∀ target : String, lookupRoute m label = some target → home = target) ∧
      (label ∉ django_system_apps → lookupRoute m label = none →
        home = "default") := by
  by_cases hsys : label ∈ django_system_apps
  · refine ⟨"default", ?_, fun _ => rfl, ?_, fun h _ => absurd hsys h⟩
    · intro db
      simp [allow_migrate, hsys]
    · intro target htarget
      rw [hdisj label hsys] at htarget
      exact absurd htarget (by simp)
  · cases hroute : lookupRoute m label with
    | some target =>
        refine ⟨target, ?_, fun h => absurd h hsys, ?_, fun _ h => by
          exact absurd h (by simp)⟩
        · intro db
          simp [allow_migrate, hsys, hroute]
        · intro t ht
          exact Option.some_injective _ ht
    | none =>
        refine ⟨"default", ?_, fun _ => rfl, ?_, fun _ _ => rfl⟩
        · intro db
          simp [allow_migrate, hsys, hroute]
        · intro t ht
          exact absurd ht (by simp)

/-- Witness for C6: the repository's own (empty) route map satisfies the
disjointness hypothesis, and the conclusion holds for the label `auth`. -/
theorem allow_migrate_exactly_one_alias_witness :
    (∀ l ∈ django_system_apps, lookupRoute route_app_labels l = none) ∧
    (∃ home : String,
      (∀ db : String,
        allow_migrate route_app_labels db "auth" = some (db == home)) ∧
      ("auth" ∈ django_system_apps → home = "default") ∧
      (∀ target : String,
        lookupRoute route_app_labels "auth" = some target → home = target) ∧
      ("auth" ∉ django_system_apps → lookupRoute route_app_labels "auth" = none →
        home = "default")) :=
  ⟨by intro l _; rfl,
   allow_migrate_exactly_one_alias route_app_labels "auth" (by intro l _; rfl)⟩

/-- Python `str.strip()` (whitespace trim at both ends). -/
def pyStrip (s : String) : String :=
  ⟨((s.data.dropWhile Char.isWhitespace).reverse.dropWhile Char.isWhitespace).reverse⟩

/-- ASCII uppercase of a character, for Python `str.upper()` on alias names. -/
def charUpper (c : Char) : Char :=
  if 97 ≤ c.toNat ∧ c.toNat ≤ 122 then Char.ofNat (c.toNat - 32) else c

/-- Python `str.upper()` restricted to ASCII (alias identifiers). -/
def pyUpper (s : String) : String :=
  ⟨s.data.map charUpper⟩

/-- Decimal parse of an environment-variable string into a natural number
(pydantic's `int` coercion for the `port` field, nonnegative case). -/
def parseNatStr (s : String) : Option Nat :=
  if s.data ≠ [] ∧ s.data.all Char.isDigit then
    some (s.data.foldl (fun acc c => acc * 10 + (c.toNat - 48)) 0)
  else
    none

/-- A process environment: raw variables plus the already-parsed
`DB_ALIASES` list (pydantic-settings parses that variable as JSON; the JSON
decoding itself is external, so the parsed value is carried directly). -/
structure Environ where
  vars : List (String × String)
  dbAliases : Option (List String)
deriving Repr

/-- Python `os.environ.get(k)`. -/
def lookupVar (e : Environ) (k : String) : Option String :=
  (e.vars.find? (fun p => p.1 == k)).map (fun p => p.2)

/-- Resolution of `EnvSettings` from `environment.py`: `ENV_STATE` defaults to
`development` when absent; a present value must be one of the recognized
states, otherwise construction fails with a validation error. -/
def resolveEnvState (e : Environ) : Except String EnvStateEnum :=
  match lookupVar e "ENV_STATE" with
  | none => Except.ok EnvStateEnum.development
  | some "development" => Except.ok EnvStateEnum.development
  | some "production" => Except.ok EnvStateEnum.production
  | some v => Except.error ("Input should be 'development' or 'production': " ++ v)

/-- Class `BaseDatabaseConfig` from `database.py`: validated connection settings
for one alias.  `password` is the secret value held by `SecretStr`. -/
structure BaseDatabaseConfig where
  engine : String := "postgresql"
  name : String
  user : String
  password : String
  host : String
  port : Nat
  dbAlias : String
deriving DecidableEq, Repr

/-- Validator `validate_required_fields` from `database.py`: `name` and `user` reject
empty/whitespace-only values with a named-field error and are returned
stripped. -/
def validateRequiredField (fieldName v : String) : Except String String :=
  if pyStrip v = "" then
    Except.error ("DB_" ++ fieldName ++ " is required and cannot be empty")
  else
    Except.ok (pyStrip v)

/-- Builder `BaseDatabaseConfig.with_prefix(prefix, alias=alias)` from `database.py`:
build one config from environment variables under the given prefix.
Defaults mirror the field declarations (`host="localhost"`, `port=5432`);
`name`/`user` are validated non-empty and stripped, `password` validated
non-empty (kept verbatim), `port` range-checked into `[1, 65535]`. -/
def withPrefixLoad (e : Environ) (pfx aliasName : String) :
    Except String BaseDatabaseConfig := do
  let name ← validateRequiredField "NAME" ((lookupVar e (pfx ++ "NAME")).getD "")
  let user ← validateRequiredField "USER" ((lookupVar e (pfx ++ "USER")).getD "")
  let password := (lookupVar e (pfx ++ "PASSWORD")).getD ""
  if pyStrip password = "" then
    throw "DB_PASSWORD is required and cannot be empty"
  let host := (lookupVar e (pfx ++ "HOST")).getD "localhost"
  let port ←
    match lookupVar e (pfx ++ "PORT") with
    | none => pure 5432
    | some s =>
      match parseNatStr s with
      | none => throw "Input should be a valid integer"
      | some n =>
        if 1 ≤ n ∧ n ≤ 65535 then pure n
        else throw "Input should be in the range 1 to 65535"
  return { name := name, user := user, password := password,
           host := host, port := port, dbAlias := aliasName }

/-- Loop body of `MultiDatabaseConfigLoader._load_all_databases`: the
`default` alias uses the bare `DB_` prefix, every other alias uses
`DB_<ALIAS>_`; a failure on `default` is fatal, a failure on any other alias
is skipped with a warning. -/
def multiLoadGo (e : Environ) :
    List String → Except String (List (String × BaseDatabaseConfig))
  | [] => Except.ok []
  | a :: rest =>
    let pfx := if a = "default" then "DB_" else "DB_" ++ pyUpper a ++ "_"
    match withPrefixLoad e pfx a with
    | Except.ok c => (multiLoadGo e rest).map (fun cs => (a, c) :: cs)
    | Except.error msg =>
      if a = "default" then
        Except.error ("Failed to load default database configuration: " ++ msg)
      else
        multiLoadGo e rest

/-- Loader `MultiDatabaseConfigLoader.__call__` from `database.py`: read the alias
list (`DB_ALIASES`, defaulting to `["default"]`) and build one validated
config per alias. -/
def multiLoadDatabases (e : Environ) :
    Except String (List (String × BaseDatabaseConfig)) :=
  multiLoadGo e (e.dbAliases.getD ["default"])

/-- Module-level globals of the schemas package, all computed once at import
time: `env_settings = EnvSettings()` in `environment.py` and
`database_config = MultiDatabaseConfigLoader()()` in `database.py` (the
latter despite its `Lazy instantiation` comment — the call runs at import).
`reload_registry` never rebuilds these. -/
structure ModuleGlobals where
  envSettingsState : EnvStateEnum
  databaseConfig : List (String × BaseDatabaseConfig)
deriving DecidableEq, Repr

/-- Import of the schemas package under environment `e`: resolve
`env_settings` and `database_config` from `e`.  Either failure aborts
startup. -/
def moduleInit (e : Environ) : Except String ModuleGlobals := do
  let s ← resolveEnvState e
  let db ← multiLoadDatabases e
  return { envSettingsState := s, databaseConfig := db }

/-- The observable fields of `_SettingsRegistry` relevant to reload:
`env_state` and `database` (the alias → config map). -/
structure RegistryView where
  env_state : EnvStateEnum
  database : List (String × BaseDatabaseConfig)
deriving DecidableEq, Repr

/-- The `cached_property` bodies of `_SettingsRegistry` in `registry.py`:
`env` returns the module-level `env_settings`, `env_state` its `state`, and
`database` returns the module-level `database_config`.  A fresh instance
therefore resolves every field from the import-time globals. -/
def registryFromGlobals (g : ModuleGlobals) : RegistryView :=
  { env_state := g.envSettingsState, database := g.databaseConfig }

/-- Function `reload_registry()` from `registry.py`: clears `get_registry`'s
`lru_cache` and constructs a fresh `_SettingsRegistry` (fresh
`cached_property` slots).  The fields of the fresh instance still resolve to
the import-time module globals; the environment current at reload time is
never read, which is why the parameter is unused. -/
def reloadRegistry (g : ModuleGlobals) (_current : Environ) : RegistryView :=
  registryFromGlobals g

/-- Modelled from the spec (not from the code): reload "clears all memoized
fields and re-derives every field from current environment state", so the
post-reload registry view would be recomputed from the environment current
at reload time. -/
def specReloadRegistry (current : Environ) : Except String RegistryView := do
  let s ← resolveEnvState current
  let db ← multiLoadDatabases current
  return { env_state := s, database := db }

/-- Environment at import time for the reload scenario: development, default
alias named `olddb`. -/
def reloadEnv₀ : Environ :=
  { vars := [("ENV_STATE", "development"), ("DB_NAME", "olddb"),
             ("DB_USER", "admin"), ("DB_PASSWORD", "pw0")],
    dbAliases := none }

/-- Environment current at reload time: production, default alias renamed to
`newdb`. -/
def reloadEnv₁ : Environ :=
  { vars := [("ENV_STATE", "production"), ("DB_NAME", "newdb"),
             ("DB_USER", "admin"), ("DB_PASSWORD", "pw0")],
    dbAliases := none }

/-- The import-time globals produced by `reloadEnv₀`. -/
def reloadGlobals₀ : ModuleGlobals :=
  { envSettingsState := EnvStateEnum.development,
    databaseConfig := [("default",
      { name := "olddb", user := "admin", password := "pw0",
        host := "localhost", port := 5432, dbAlias := "default" })] }

/-- C2: the explicit reload operation does **not** re-derive the registry's
fields from the environment current at reload time.  Importing under
`reloadEnv₀`, changing the environment to `reloadEnv₁`, and reloading leaves
the registry with the import-time environment state (`development`, not
`production`) and the import-time database alias map (name `olddb`, not
`newdb`), while the spec-modelled reload produces the re-derived view.  The
configuration change is therefore not observable through the registry. -/
theorem reload_registry_stale :
    moduleInit reloadEnv₀ = Except.ok reloadGlobals₀ ∧
    reloadRegistry reloadGlobals₀ reloadEnv₁ = registryFromGlobals reloadGlobals₀ ∧
    (reloadRegistry reloadGlobals₀ reloadEnv₁).env_state = EnvStateEnum.development ∧
    ((reloadRegistry reloadGlobals₀ reloadEnv₁).database.map
      (fun p => (p.1, p.2.name))) = [("default", "olddb")] ∧
    specReloadRegistry reloadEnv₁ =
      Except.ok { env_state := EnvStateEnum.production,
                  database := [("default",
                    { name := "newdb", user := "admin", password := "pw0",
                      host := "localhost", port := 5432,
                      dbAlias := "default" })] } ∧
    reloadRegistry reloadGlobals₀ reloadEnv₁ ≠
      { env_state := EnvStateEnum.production,
        database := [("default",
          { name := "newdb", user := "admin", password := "pw0",
            host := "localhost", port := 5432, dbAlias := "default" })] } := by
  refine ⟨rfl, rfl, rfl, by decide, rfl, by decide⟩

/-- The part of a `zxcvbn` result that `validate_secret_key` reads: the
score (0–4) and the feedback fields.  `warning?` is `none` when the feedback
dict has no `warning` key; the strength estimator itself is external and is
passed as an oracle. -/
structure ZxcvbnResult where
  score : Nat
  warning? : Option String
  suggestions : List String
deriving Repr

/-- Python `'; '.join(xs)`. -/
def joinSep (sep : String) : List String → String
  | [] => ""
  | [x] => x
  | x :: xs => x ++ sep ++ joinSep sep xs

/-- The rejection message of the length check in
`DjangoProdConfig.validate_secret_key`. -/
def secretKeyLengthError : String :=
  "SECRET_KEY must be at least 50 characters long in production"

/-- Validator `DjangoProdConfig.validate_secret_key` from `django.py`: reject empty
keys, then keys shorter than 50 characters, then (and only then) measure
strength with `zxcvbn` and reject scores below 3 with a message carrying the
score, the warning, and the suggestions. -/
def validate_secret_key (zx : String → ZxcvbnResult) (v : String) :
    Except String String :=
  if v = "" then
    Except.error "SECRET_KEY must not be empty in production"
  else if v.length < 50 then
    Except.error secretKeyLengthError
  else
    let result := zx v
    if result.score < 3 then
      let warning := result.warning?.getD "Secret key is too weak"
      let msg := "SECRET_KEY strength insufficient (score: " ++
        Nat.repr result.score ++ "/4). " ++ warning
      let msg :=
        if result.suggestions ≠ [] then
          msg ++ " Suggestions: " ++ joinSep "; " result.suggestions
        else msg
      Except.error msg
    else
      Except.ok v

/-- Substring test on character lists (used to check what a rejection
message names). -/
def listContainsSub (needle : List Char) (hay : List Char) : Bool :=
  match hay with
  | [] => needle.isPrefixOf ([] : List Char)
  | _ :: rest => needle.isPrefixOf hay || listContainsSub needle rest

/-- Substring test on strings. -/
def mentionsSub (needle hay : String) : Bool :=
  listContainsSub needle.data hay.data

/-- A message names the length shortfall if it mentions the 50-character
minimum. -/
def mentionsLengthShortfall (msg : String) : Bool :=
  mentionsSub "at least 50 characters" msg

/-- A message names the measured strength shortfall if it mentions the
strength or the score. -/
def mentionsStrengthShortfall (msg : String) : Bool :=
  mentionsSub "strength" msg || mentionsSub "score" msg

/-- A fixed strength oracle reporting the lowest score with feedback, as
`zxcvbn` does for a 10-character low-entropy value. -/
def zxLowEntropy : String → ZxcvbnResult :=
  fun _ => { score := 0, warning? := some "This is a very common password",
             suggestions := ["Add another word or two"] }

/-- Counterexample to C5: the production secret-key validator rejects the
10-character low-entropy value `weakpass12` with the length message alone;
that message does not name the measured strength shortfall (the strength
check is never reached), so no single message names both shortfalls. -/
theorem secret_key_short_message_counterexample :
    validate_secret_key zxLowEntropy "weakpass12" =
      Except.error secretKeyLengthError ∧
    mentionsLengthShortfall secretKeyLengthError = true ∧
    mentionsStrengthShortfall secretKeyLengthError = false := by
  refine ⟨by decide, by decide, by decide⟩

/-- C5 amended: for every strength oracle and every nonempty key shorter
than 50 characters, validation rejects with exactly the length message,
which names the length shortfall and does not name a strength shortfall:
the length check short-circuits before strength is measured. -/
theorem secret_key_short_rejected_length_only
    (zx : String → ZxcvbnResult) (v : String)
    (hne : v ≠ "") (hlen : v.length < 50) :
    validate_secret_key zx v = Except.error secretKeyLengthError ∧
    mentionsLengthShortfall secretKeyLengthError = true ∧
    mentionsStrengthShortfall secretKeyLengthError = false := by
  refine ⟨?_, by decide, by decide⟩
  simp only [validate_secret_key, if_neg hne, if_pos hlen]

/-- Witness for C5's amended theorem at the concrete 10-character key. -/
theorem secret_key_short_rejected_length_only_witness :
    "weakpass10" ≠ "" ∧ ("weakpass10" : String).length < 50 ∧
    (validate_secret_key zxLowEntropy "weakpass10" =
      Except.error secretKeyLengthError ∧
    mentionsLengthShortfall secretKeyLengthError = true ∧
    mentionsStrengthShortfall secretKeyLengthError = false) :=
  ⟨by decide, by decide,
   secret_key_short_rejected_length_only zxLowEntropy "weakpass10"
     (by decide) (by decide)⟩

/-- Mutable state of `EnvironmentBasedFactory` from `utils.py` — the
`_cache` dict — plus an instrumentation `log` recording each constructor
invocation in order.  Constructors are modelled as functions of the
invocation index (`log.length`), so distinct invocations may yield distinct
instances; returning the value of the first invocation is exactly
"returning the identical memoized instance". -/
structure FactoryState (α : Type) where
  cache : List (EnvStateEnum × α)
  log : List EnvStateEnum
deriving Repr

/-- Factory state right after `__init__`: empty cache, nothing constructed. -/
def emptyFactoryState (α : Type) : FactoryState α :=
  { cache := [], log := [] }

/-- Python `state in self._cache` / `self._cache[state]`. -/
def cacheLookup {α : Type} (cache : List (EnvStateEnum × α))
    (s : EnvStateEnum) : Option α :=
  (cache.find? (fun p => p.1 == s)).map (fun p => p.2)

/-- Method `EnvironmentBasedFactory.__call__` from `utils.py`: on a cache miss look
up the constructor in `_factory_mapping` (a missing state is a `KeyError`,
modelled as `none`), invoke it, store and return the instance; on a hit
return the cached instance unchanged. -/
def factoryCall {α : Type} (mapping : EnvStateEnum → Option (Nat → α))
    (st : FactoryState α) (s : EnvStateEnum) : Option (α × FactoryState α) :=
  match cacheLookup st.cache s with
  | some v => some (v, st)
  | none =>
    match mapping s with
    | none => none
    | some ctor =>
      let v := ctor st.log.length
      some (v, { cache := (s, v) :: st.cache, log := st.log ++ [s] })

/-- A sequence of factory calls, threading the cache; the first failing call
(KeyError) aborts the run. -/
def factoryRun {α : Type} (mapping : EnvStateEnum → Option (Nat → α)) :
    FactoryState α → List EnvStateEnum → Option (List α × FactoryState α)
  | st, [] => some ([], st)
  | st, s :: rest =>
    match factoryCall mapping st s with
    | none => none
    | some (v, st') =>
      match factoryRun mapping st' rest with
      | none => none
      | some (out, stF) => some (v :: out, stF)

/-- Number of constructor invocations recorded for a state. -/
def countOcc (l : List EnvStateEnum) (s : EnvStateEnum) : Nat :=
  (l.filter (fun t => t == s)).length

theorem cacheLookup_cons {α : Type} (t : EnvStateEnum) (w : α)
    (c : List (EnvStateEnum × α)) (s : EnvStateEnum) :
    cacheLookup ((t, w) :: c) s = if t = s then some w else cacheLookup c s := by
  by_cases h : t = s
  · subst h
    simp [cacheLookup, List.find?]
  · have hb : (t == s) = false := by simp [h]
    simp [cacheLookup, List.find?, hb, h]

theorem countOcc_append (l₁ l₂ : List EnvStateEnum) (s : EnvStateEnum) :
    countOcc (l₁ ++ l₂) s = countOcc l₁ s + countOcc l₂ s := by
  simp [countOcc, List.filter_append]

theorem countOcc_singleton (t s : EnvStateEnum) :
    countOcc [t] s = if t = s then 1 else 0 := by
  by_cases h : t = s <;> simp [countOcc, h]

/-- Behaviour of one factory call: the requested state ends up cached with
the returned value; other cache entries and other states' invocation counts
are untouched; the requested state's invocation count grows by one exactly
on a cache miss. -/
theorem factoryCall_spec {α : Type} {mapping : EnvStateEnum → Option (Nat → α)}
    {st st' : FactoryState α} {s : EnvStateEnum} {v : α}
    (h : factoryCall mapping st s = some (v, st')) :
    cacheLookup st'.cache s = some v ∧
    (∀ t, t ≠ s → cacheLookup st'.cache t = cacheLookup st.cache t) ∧
    (∀ t, t ≠ s → countOcc st'.log t = countOcc st.log t) ∧
    countOcc st'.log s =
      countOcc st.log s +
        (if (cacheLookup st.cache s).isSome then 0 else 1) := by
  unfold factoryCall at h
  cases hc : cacheLookup st.cache s with
  | some w =>
      rw [hc] at h
      obtain ⟨rfl, rfl⟩ : w = v ∧ st = st' := by
        constructor <;> { injection h with h1; cases h1; rfl }
      exact ⟨hc, fun _ _ => rfl, fun _ _ => rfl, by simp [hc]⟩
  | none =>
      rw [hc] at h
      cases hm : mapping s with
      | none => rw [hm] at h; exact absurd h (by simp)
      | some ctor =>
          rw [hm] at h
          obtain ⟨rfl, rfl⟩ : ctor st.log.length = v ∧
              ({ cache := (s, ctor st.log.length) :: st.cache,
                 log := st.log ++ [s] } : FactoryState α) = st' := by
            constructor <;> { injection h with h1; cases h1; rfl }
          refine ⟨by simp [cacheLookup_cons], ?_, ?_, ?_⟩
          · intro t ht
            have hs : ¬ s = t := fun h' => ht h'.symm
            simp [cacheLookup_cons, hs]
          · intro t ht
            have hs : ¬ s = t := fun h' => ht h'.symm
            simp [countOcc_append, countOcc_singleton, hs]
          · simp [countOcc_append, countOcc_singleton, hc]

/-- A successful call preserves every existing cache binding. -/
theorem factoryCall_preserves {α : Type}
    {mapping : EnvStateEnum → Option (Nat → α)}
    {st st' : FactoryState α} {s : EnvStateEnum} {v : α}
    (h : factoryCall mapping st s = some (v, st'))
    {t : EnvStateEnum} {w : α} (hw : cacheLookup st.cache t = some w) :
    cacheLookup st'.cache t = some w := by
  by_cases ht : t = s
  · subst ht
    unfold factoryCall at h
    rw [hw] at h
    obtain ⟨rfl, rfl⟩ : w = v ∧ st = st' := by
      constructor <;> { injection h with h1; cases h1; rfl }
    exact hw
  · rw [(factoryCall_spec h).2.1 t ht]
    exact hw

/-- A call on a state present in the mapping always succeeds. -/
theorem factoryCall_total {α : Type}
    {mapping : EnvStateEnum → Option (Nat → α)}
    (st : FactoryState α) {s : EnvStateEnum}
    (h : (mapping s).isSome = true) :
    ∃ v st', factoryCall mapping st s = some (v, st') := by
  unfold factoryCall
  cases hc : cacheLookup st.cache s with
  | some w => exact ⟨w, st, rfl⟩
  | none =>
      cases hm : mapping s with
      | none => rw [hm] at h; simp at h
      | some ctor => exact ⟨_, _, rfl⟩

/-- Invariant tying cache and invocation log together: a state is cached iff
its constructor ran exactly once; otherwise it never ran. -/
def FactoryInv {α : Type} (st : FactoryState α) : Prop :=
  ∀ s, countOcc st.log s = if (cacheLookup st.cache s).isSome then 1 else 0

theorem factoryInv_empty (α : Type) : FactoryInv (emptyFactoryState α) := by
  intro s
  simp [emptyFactoryState, countOcc, cacheLookup]

theorem factoryCall_inv {α : Type} {mapping : EnvStateEnum → Option (Nat → α)}
    {st st' : FactoryState α} {s : EnvStateEnum} {v : α}
    (h : factoryCall mapping st s = some (v, st')) (hinv : FactoryInv st) :
    FactoryInv st' := by
  obtain ⟨h1, h2, h3, h4⟩ := factoryCall_spec h
  intro t
  by_cases ht : t = s
  · subst ht
    rw [h4, hinv t, h1]
    cases hc : cacheLookup st.cache t <;> simp [hc]
  · rw [h3 t ht, h2 t ht, hinv t]

/-- Behaviour of a request sequence: when every requested state is in the
mapping, the run succeeds, preserves the invariant and existing cache
bindings, leaves unrequested states' invocation counts untouched, drives
every requested state's invocation count to exactly one, and returns for
each request the value the final cache holds for that state. -/
theorem factoryRun_spec {α : Type} (mapping : EnvStateEnum → Option (Nat → α)) :
    ∀ (rs : List EnvStateEnum) (st : FactoryState α),
    (∀ s ∈ rs, (mapping s).isSome = true) → FactoryInv st →
    ∃ out stF, factoryRun mapping st rs = some (out, stF) ∧ FactoryInv stF ∧
      (∀ t w, cacheLookup st.cache t = some w →
        cacheLookup stF.cache t = some w) ∧
      (∀ t, t ∉ rs → countOcc stF.log t = countOcc st.log t) ∧
      (∀ t, t ∈ rs → countOcc stF.log t = 1) ∧
      (∀ p ∈ rs.zip out, cacheLookup stF.cache p.1 = some p.2) := by
  intro rs
  induction rs with
  | nil =>
      intro st _ hinv
      exact ⟨[], st, rfl, hinv, fun _ _ hw => hw, fun _ _ => rfl,
        fun t ht => absurd ht (List.not_mem_nil t), fun p hp => absurd hp
          (by simp)⟩
  | cons s rest ih =>
      intro st hmap hinv
      obtain ⟨v, st', hcall⟩ :=
        factoryCall_total st (hmap s (List.mem_cons_self s rest))
      have hinv' : FactoryInv st' := factoryCall_inv hcall hinv
      obtain ⟨out, stF, hrun, hinvF, hpres, hout, hin, hzip⟩ :=
        ih st' (fun t ht => hmap t (List.mem_cons_of_mem s ht)) hinv'
      obtain ⟨hlook', hcacheEq, hcountEq, _⟩ := factoryCall_spec hcall
      refine ⟨v :: out, stF, ?_, hinvF, ?_, ?_, ?_, ?_⟩
      · simp [factoryRun, hcall, hrun]
      · intro t w hw
        exact hpres t w (factoryCall_preserves hcall hw)
      · intro t ht
        have hts : t ≠ s := fun h' => ht (h' ▸ List.mem_cons_self s rest)
        have htr : t ∉ rest := fun h' => ht (List.mem_cons_of_mem s h')
        rw [hout t htr, hcountEq t hts]
      · intro t ht
        rcases List.mem_cons.mp ht with h' | h'
        · subst h'
          by_cases htr : t ∈ rest
          · exact hin t htr
          · rw [hout t htr]
            have : (cacheLookup st'.cache t).isSome = true := by
              rw [hlook']; rfl
            rw [hinv' t, this]
            rfl
        · exact hin t h'
      · intro p hp
        rcases List.mem_cons.mp hp with h' | h'
        · subst h'
          exact hpres s v hlook'
        · exact hzip p h'

/-- C8: for every state present in the factory mapping, calls are memoized —
a repeated call returns the identical cached instance and leaves the state
unchanged — and over any request sequence the constructor of each mapped
state runs exactly once if the state was requested and never otherwise, and
any two requests for the same state receive the same instance. -/
theorem factory_memoizes_and_constructs_once {α : Type}
    (mapping : EnvStateEnum → Option (Nat → α)) (rs : List EnvStateEnum)
    (hmap : ∀ s ∈ rs, (mapping s).isSome = true) :
    (∀ (st : FactoryState α) (s : EnvStateEnum) (v : α)
        (st' : FactoryState α),
      factoryCall mapping st s = some (v, st') →
        factoryCall mapping st' s = some (v, st')) ∧
    ∃ out stF, factoryRun mapping (emptyFactoryState α) rs = some (out, stF) ∧
      (∀ s, countOcc stF.log s = if s ∈ rs then 1 else 0) ∧
      (∀ p ∈ rs.zip out, ∀ q ∈ rs.zip out, p.1 = q.1 → p.2 = q.2) := by
  constructor
  · intro st s v st' h
    have hlook := (factoryCall_spec h).1
    unfold factoryCall
    rw [hlook]
  · obtain ⟨out, stF, hrun, _, _, hout, hin, hzip⟩ :=
      factoryRun_spec mapping rs (emptyFactoryState α) hmap
        (factoryInv_empty α)
    refine ⟨out, stF, hrun, ?_, ?_⟩
    · intro s
      by_cases hs : s ∈ rs
      · simp [hs, hin s hs]
      · rw [if_neg hs, hout s hs]
        rfl
    · intro p hp q hq hpq
      have h1 := hzip p hp
      have h2 := hzip q hq
      rw [hpq] at h1
      rw [h1] at h2
      exact Option.some_injective _ h2

/-- A concrete factory mapping: both environment states map to a
constructor returning its invocation index. -/
def natFactoryMapping : EnvStateEnum → Option (Nat → Nat) :=
  fun _ => some (fun n => n)

/-- Witness for C8 at a concrete request sequence that repeats a state. -/
theorem factory_memoizes_and_constructs_once_witness :
    (∀ s ∈ [EnvStateEnum.development, EnvStateEnum.development,
            EnvStateEnum.production], (natFactoryMapping s).isSome = true) ∧
    ((∀ (st : FactoryState Nat) (s : EnvStateEnum) (v : Nat)
        (st' : FactoryState Nat),
      factoryCall natFactoryMapping st s = some (v, st') →
        factoryCall natFactoryMapping st' s = some (v, st')) ∧
    ∃ out stF,
      factoryRun natFactoryMapping (emptyFactoryState Nat)
        [EnvStateEnum.development, EnvStateEnum.development,
         EnvStateEnum.production] = some (out, stF) ∧
      (∀ s, countOcc stF.log s =
        if s ∈ [EnvStateEnum.development, EnvStateEnum.development,
                EnvStateEnum.production] then 1 else 0) ∧
      (∀ p ∈ List.zip [EnvStateEnum.development, EnvStateEnum.development,
                EnvStateEnum.production] out,
       ∀ q ∈ List.zip [EnvStateEnum.development, EnvStateEnum.development,
                EnvStateEnum.production] out,
        p.1 = q.1 → p.2 = q.2)) :=
  ⟨fun s _ => rfl,
   factory_memoizes_and_constructs_once natFactoryMapping
     [EnvStateEnum.development, EnvStateEnum.development,
      EnvStateEnum.production] (fun s _ => rfl)⟩

/-- Python exceptions relevant to the database commands.  `exit c` is
`typer.Exit(code=c)` (via `click.exceptions.Exit`, a `RuntimeError`, hence
an `Exception`); `keyboardInterrupt` is `KeyboardInterrupt` (a
`BaseException` that is *not* an `Exception`); `operationalError` is
`psycopg.OperationalError`; `otherError` is any other `Exception`. -/
inductive PyExc
  | exit (code : Nat)
  | keyboardInterrupt
  | operationalError (msg : String)
  | otherError (msg : String)
deriving DecidableEq, Repr

/-- Whether `except Exception` catches the exception: everything here except
`KeyboardInterrupt`. -/
def isExceptionClass : PyExc → Bool
  | PyExc.keyboardInterrupt => false
  | _ => true

/-- Result of running a command body: normal return or a raised exception. -/
abbrev PyBodyResult := Except PyExc Unit

/-- Exit status the `typer` runtime assigns to a command whose function
returned this result: 0 on normal return, the carried code for
`typer.Exit`, 130 for an uncaught `KeyboardInterrupt`, 1 for any other
uncaught exception (traceback). -/
def topLevelExit : PyBodyResult → Nat
  | Except.ok _ => 0
  | Except.error (PyExc.exit c) => c
  | Except.error PyExc.keyboardInterrupt => 130
  | Except.error _ => 1

/-- What the connection-phase of `_drop_single_database` /
`_create_single_database` observes: either the queries run (existence check
result, and whether the post-operation verification query fails) or an
exception is raised while connecting/executing. -/
inductive ConnEvent
  | run (dbExists : Bool) (verifyFails : Bool)
  | raise (e : PyExc)
deriving DecidableEq, Repr

/-- The `try`-block body of `_drop_single_database` from `operations.py`:
warn, then (unless `--force`) require the typed database name —
`require_explicit_confirmation` raises `typer.Exit(code=0)` on mismatch —
and the `Confirm.ask` safety question — declining raises
`typer.Exit(code=0)`; then connect and drop: a missing database raises
`typer.Exit(code=0)` ("nothing to drop"), a failed deletion verification
raises `typer.Exit(code=1)`.  `promptExc` is an exception raised before or
during the prompts (e.g. a `KeyboardInterrupt` at the prompt). -/
def dropBody (force : Bool) (dbName typed : String) (confirmYes : Bool)
    (promptExc : Option PyExc) (conn : ConnEvent) : PyBodyResult :=
  match promptExc with
  | some e => Except.error e
  | none =>
    if !force && typed != dbName then
      Except.error (PyExc.exit 0)
    else if !force && !confirmYes then
      Except.error (PyExc.exit 0)
    else
      match conn with
      | ConnEvent.raise e => Except.error e
      | ConnEvent.run dbExists verifyFails =>
        if !dbExists then
          Except.error (PyExc.exit 0)
        else if verifyFails then
          Except.error (PyExc.exit 1)
        else
          Except.ok ()

/-- The `except` chain of `_drop_single_database`: `KeyboardInterrupt` →
`typer.Exit(1)`; `psycopg.OperationalError` → `typer.Exit(1)`; any other
`Exception` — which includes `typer.Exit` itself — → `typer.Exit(1)`. -/
def handleDropExc : PyBodyResult → PyBodyResult
  | Except.error PyExc.keyboardInterrupt => Except.error (PyExc.exit 1)
  | Except.error (PyExc.operationalError _) => Except.error (PyExc.exit 1)
  | Except.error e =>
      if isExceptionClass e then Except.error (PyExc.exit 1)
      else Except.error e
  | Except.ok _ => Except.ok ()

/-- Process exit code of `db drop` on a single alias. -/
def dropSingleExit (force : Bool) (dbName typed : String) (confirmYes : Bool)
    (promptExc : Option PyExc) (conn : ConnEvent) : Nat :=
  topLevelExit (handleDropExc (dropBody force dbName typed confirmYes
    promptExc conn))

/-- The `try`-block body of `_create_single_database` from `operations.py`:
an existing database raises `typer.Exit(code=1)`, a failed creation
verification raises `typer.Exit(code=1)`. -/
def createBody (promptExc : Option PyExc) (conn : ConnEvent) : PyBodyResult :=
  match promptExc with
  | some e => Except.error e
  | none =>
    match conn with
    | ConnEvent.raise e => Except.error e
    | ConnEvent.run dbExists verifyFails =>
      if dbExists then
        Except.error (PyExc.exit 1)
      else if verifyFails then
        Except.error (PyExc.exit 1)
      else
        Except.ok ()

/-- The `except` chain of `_create_single_database`: `KeyboardInterrupt` is
caught, a message printed, and the handler returns normally (no re-raise);
`psycopg.OperationalError` and any other `Exception` → `typer.Exit(1)`. -/
def handleCreateExc : PyBodyResult → PyBodyResult
  | Except.error PyExc.keyboardInterrupt => Except.ok ()
  | Except.error (PyExc.operationalError _) => Except.error (PyExc.exit 1)
  | Except.error e =>
      if isExceptionClass e then Except.error (PyExc.exit 1)
      else Except.error e
  | Except.ok _ => Except.ok ()

/-- Process exit code of `db create` on a single alias. -/
def createSingleExit (promptExc : Option PyExc) (conn : ConnEvent) : Nat :=
  topLevelExit (handleCreateExc (createBody promptExc conn))

/-- Counterexample to C4: operator cancellation does not always exit 0.  A
typed-confirmation mismatch in `db drop` (operator types `x` for database
`mydb`) raises the cancellation `typer.Exit(code=0)`, but the blanket
`except Exception` catches it and re-raises `typer.Exit(code=1)`; and a
`KeyboardInterrupt` during `db drop` is re-raised as `typer.Exit(code=1)`.
Both runs exit 1, not 0. -/
theorem cancellation_exit_code_counterexample :
    dropSingleExit false "mydb" "x" true none (ConnEvent.run true false) = 1 ∧
    dropSingleExit true "mydb" "mydb" true (some PyExc.keyboardInterrupt)
      (ConnEvent.run true false) = 1 ∧
    (1 : Nat) ≠ 0 := by
  refine ⟨rfl, rfl, by decide⟩

/-- C4 amended: in `db drop`, a typed-confirmation mismatch and a declined
safety prompt raise the cancellation exit 0 inside the `try` block, but the
blanket `except Exception` (which catches `typer.Exit`) converts every
inner exit — cancellations included — to exit code 1, and a
`KeyboardInterrupt` anywhere in the operation also yields exit code 1; only
in `db create` is a `KeyboardInterrupt` swallowed, yielding exit code 0. -/
theorem cancellation_exit_codes_amended (dbName typed : String)
    (confirmYes : Bool) (conn : ConnEvent)
    (hmismatch : typed ≠ dbName) :
    dropSingleExit false dbName typed confirmYes none conn = 1 ∧
    (∀ (force : Bool) (t : String) (c : Bool) (cn : ConnEvent),
      dropSingleExit force dbName t c (some PyExc.keyboardInterrupt) cn = 1) ∧
    (∀ cn : ConnEvent, createSingleExit (some PyExc.keyboardInterrupt) cn = 0) := by
  refine ⟨?_, fun _ _ _ _ => rfl, fun _ => rfl⟩
  have hb : (typed != dbName) = true := by
    simp [hmismatch]
  simp [dropSingleExit, dropBody, hb, handleDropExc, topLevelExit,
    isExceptionClass]

/-- Witness for C4's amended theorem at a concrete mismatching input. -/
theorem cancellation_exit_codes_amended_witness :
    ("x" : String) ≠ "mydb" ∧
    (dropSingleExit false "mydb" "x" false none (ConnEvent.run false false) = 1 ∧
    (∀ (force : Bool) (t : String) (c : Bool) (cn : ConnEvent),
      dropSingleExit force "mydb" t c (some PyExc.keyboardInterrupt) cn = 1) ∧
    (∀ cn : ConnEvent, createSingleExit (some PyExc.keyboardInterrupt) cn = 0)) :=
  ⟨by decide,
   cancellation_exit_codes_amended "mydb" "x" false
     (ConnEvent.run false false) (by decide)⟩

/-- What the connection-phase of `_setup_single_database` observes: either
the admin connection succeeds and the workflow runs (existence checks and
migration outcome) or an exception is raised (e.g. rejected admin
credentials raise `psycopg.OperationalError`). -/
inductive SetupConn
  | run (userExists dbExists migrateOk : Bool)
  | raise (e : PyExc)
deriving DecidableEq, Repr

/-- The `try`-block body of `_setup_single_database` from `setup.py`:
declining the `Continue?` prompt raises `typer.Exit(code=0)`; a missing
admin password raises `typer.Exit(code=1)`; when `reset` is set an existing
database (and user) are dropped first, so an existing database aborts with
`typer.Exit(code=1)` only when `reset` is not requested; a failing
migration step raises `typer.Exit(code=1)`. -/
def setupBody (force confirmYes reset noMigrate adminPasswordGiven : Bool)
    (promptExc : Option PyExc) (conn : SetupConn) : PyBodyResult :=
  match promptExc with
  | some e => Except.error e
  | none =>
    if !force && !confirmYes then
      Except.error (PyExc.exit 0)
    else if !adminPasswordGiven then
      Except.error (PyExc.exit 1)
    else
      match conn with
      | SetupConn.raise e => Except.error e
      | SetupConn.run _userExists dbExists migrateOk =>
        if dbExists && !reset then
          Except.error (PyExc.exit 1)
        else if !noMigrate && !migrateOk then
          Except.error (PyExc.exit 1)
        else
          Except.ok ()

/-- The `except` chain of `_setup_single_database`: `KeyboardInterrupt` →
`typer.Exit(1)`; any other `Exception` (including `typer.Exit` and
`psycopg.OperationalError`) → `typer.Exit(1)`. -/
def handleSetupExc : PyBodyResult → PyBodyResult
  | Except.error PyExc.keyboardInterrupt => Except.error (PyExc.exit 1)
  | Except.error e =>
      if isExceptionClass e then Except.error (PyExc.exit 1)
      else Except.error e
  | Except.ok _ => Except.ok ()

/-- The fan-out loop shared by `create`/`drop`/`reset`/`create-user`/
`drop-user`/`setup`:

    for db_alias in aliases:
        try:
            single(db_alias, ...)
        except typer.Exit:
            continue

A `typer.Exit` raised for one alias is caught and the loop continues with
the next alias; any other exception propagates and halts the loop.  Returns
the per-alias trace (in iteration order) and the command's final outcome —
after the loop the command function returns normally. -/
def runFanOut (f : String → PyBodyResult) :
    List String → List (String × PyBodyResult) × PyBodyResult
  | [] => ([], Except.ok ())
  | a :: rest =>
    match f a with
    | Except.ok () =>
        let (tr, r) := runFanOut f rest
        ((a, Except.ok ()) :: tr, r)
    | Except.error (PyExc.exit c) =>
        let (tr, r) := runFanOut f rest
        ((a, Except.error (PyExc.exit c)) :: tr, r)
    | Except.error e => ([(a, Except.error e)], Except.error e)

/-- Process exit code of a fan-out command over the given aliases. -/
def fanOutExitCode (f : String → PyBodyResult) (aliases : List String) : Nat :=
  topLevelExit (runFanOut f aliases).2

/-- Scenario C per-alias workflow: two aliases where the second alias's
admin credentials are rejected (`psycopg.OperationalError` from the admin
connect, converted by the handler to `typer.Exit(1)`), the first fully set
up. -/
def setupScenarioC (a : String) : PyBodyResult :=
  if a = "db2" then
    handleSetupExc (setupBody true true false false true none
      (SetupConn.raise (PyExc.operationalError
        "password authentication failed for user")))
  else
    handleSetupExc (setupBody true true false false true none
      (SetupConn.run false false true))

/-- Counterexample to C3: in `db setup --all` over `default` and `db2` with
`db2`'s admin credentials rejected, the first alias succeeds, the second
fails with a typed abort (`typer.Exit(1)`), the loop processes both — yet
the overall process exit code is 0, so the exit status does **not** reflect
the partial failure. -/
theorem fanout_exit_code_counterexample :
    runFanOut setupScenarioC ["default", "db2"] =
      ([("default", Except.ok ()),
        ("db2", Except.error (PyExc.exit 1))], Except.ok ()) ∧
    fanOutExitCode setupScenarioC ["default", "db2"] = 0 := by
  refine ⟨rfl, rfl⟩

/-- C3 amended: whenever every per-alias workflow either returns normally
or raises a typed abort (`typer.Exit`) — which the operation handlers
guarantee — the fan-out loop processes every alias in declaration order,
recording each alias's own outcome, and the overall process exit code is 0
regardless of per-alias failures: partial failure is visible only in the
per-alias outcomes, never in the exit status. -/
theorem fanout_processes_all_aliases (f : String → PyBodyResult)
    (aliases : List String)
    (h : ∀ a, f a = Except.ok () ∨ ∃ c, f a = Except.error (PyExc.exit c)) :
    (runFanOut f aliases).1 = aliases.map (fun a => (a, f a)) ∧
    (runFanOut f aliases).2 = Except.ok () ∧
    fanOutExitCode f aliases = 0 := by
  induction aliases with
  | nil => exact ⟨rfl, rfl, rfl⟩
  | cons a rest ih =>
      obtain ⟨htr, hres, hexit⟩ := ih
      rcases h a with hf | ⟨c, hf⟩
      · refine ⟨?_, ?_, ?_⟩ <;>
          simp [runFanOut, hf, htr, hres, fanOutExitCode, topLevelExit]
      · refine ⟨?_, ?_, ?_⟩ <;>
          simp [runFanOut, hf, htr, hres, fanOutExitCode, topLevelExit]

/-- Witness for C3's amended theorem on the Scenario C workflow. -/
theorem fanout_processes_all_aliases_witness :
    (∀ a, setupScenarioC a = Except.ok () ∨
      ∃ c, setupScenarioC a = Except.error (PyExc.exit c)) ∧
    ((runFanOut setupScenarioC ["default", "db2"]).1 =
      List.map (fun a => (a, setupScenarioC a)) ["default", "db2"] ∧
    (runFanOut setupScenarioC ["default", "db2"]).2 = Except.ok () ∧
    fanOutExitCode setupScenarioC ["default", "db2"] = 0) := by
  have h : ∀ a, setupScenarioC a = Except.ok () ∨
      ∃ c, setupScenarioC a = Except.error (PyExc.exit c) := by
    intro a
    by_cases ha : a = "db2"
    · right
      exact ⟨1, by simp [setupScenarioC, ha, setupBody, handleSetupExc,
        isExceptionClass]⟩
    · left
      simp [setupScenarioC, ha, setupBody, handleSetupExc]
  exact ⟨h, fanout_processes_all_aliases setupScenarioC ["default", "db2"] h⟩

/-- The connection-failure report of `_create_single_database` from
`operations.py` (the `psycopg.OperationalError` handler): the lines printed
to the console, as functions of the alias configuration and the engine's
error message.  The configuration's `password` field is never read. -/
def connectionFailureReport (c : BaseDatabaseConfig) (errMsg : String) :
    List String :=
  ["[red]✗ Connection failed:[/red] " ++ errMsg,
   "\n[yellow]Please verify:[/yellow]",
   "  - PostgreSQL server is running",
   "  - Host '" ++ c.host ++ "' is accessible",
   "  - Port " ++ Nat.repr c.port ++ " is correct",
   "  - User '" ++ c.user ++ "' credentials are correct"]

/-- C10: the connection-failure report names the connection parameters
(host, port, user) and never depends on the secret password: two runs whose
configurations differ only in the password produce the identical report. -/
theorem connection_failure_report_no_secret
    (c : BaseDatabaseConfig) (otherPassword errMsg : String) :
    connectionFailureReport { c with password := otherPassword } errMsg =
      connectionFailureReport c errMsg ∧
    ("  - Host '" ++ c.host ++ "' is accessible") ∈
      connectionFailureReport c errMsg ∧
    ("  - Port " ++ Nat.repr c.port ++ " is correct") ∈
      connectionFailureReport c errMsg ∧
    ("  - User '" ++ c.user ++ "' credentials are correct") ∈
      connectionFailureReport c errMsg := by
  refine ⟨rfl, ?_, ?_, ?_⟩ <;> simp [connectionFailureReport]

/-- Property `PostgreSQLDatabaseConfig.url` from `database.py`:
`postgresql://{user}:{password}@{host}:{port}/{name}`. -/
def renderUrl (c : BaseDatabaseConfig) : String :=
  "postgresql://" ++ c.user ++ ":" ++ c.password ++ "@" ++ c.host ++ ":" ++
    Nat.repr c.port ++ "/" ++ c.name

/-- The components recovered by parsing a connection URL back. -/
structure ParsedUrl where
  user : String
  password : String
  host : String
  portStr : String
  dbName : String
deriving DecidableEq, Repr

/-- Split a character list at the first character satisfying `p`, removing
that character. -/
def splitFirst (p : Char → Bool) : List Char → Option (List Char × List Char)
  | [] => none
  | c :: cs =>
    if p c then some ([], cs)
    else
      match splitFirst p cs with
      | some (a, b) => some (c :: a, b)
      | none => none

/-- Split a character list at the last character satisfying `p`, removing
that character. -/
def splitLast (p : Char → Bool) (l : List Char) :
    Option (List Char × List Char) :=
  match splitFirst p l.reverse with
  | some (a, b) => some (b.reverse, a.reverse)
  | none => none

/-- Modelled from the spec: parsing a rendered connection URL back into its
host/port/user/name components, following the standard URL grammar —
scheme `postgresql://`, then the authority up to the first `/` (the rest is
the database name), userinfo before the last `@` (user before the first
`:`, password after), then host and port split at the last `:`. -/
def parseUrl (s : String) : Option ParsedUrl :=
  if "postgresql://".data.isPrefixOf s.data then
    match splitFirst (fun ch => ch == '/')
        (s.data.drop "postgresql://".data.length) with
    | none => none
    | some (authority, path) =>
      match splitLast (fun ch => ch == '@') authority with
      | none => none
      | some (userinfo, hostport) =>
        match splitFirst (fun ch => ch == ':') userinfo with
        | none => none
        | some (u, pw) =>
          match splitLast (fun ch => ch == ':') hostport with
          | none => none
          | some (h, prt) =>
            some { user := String.mk u, password := String.mk pw,
                   host := String.mk h, portStr := String.mk prt,
                   dbName := String.mk path }
  else
    none

theorem isPrefixOf_append_self (l₁ l₂ : List Char) :
    l₁.isPrefixOf (l₁ ++ l₂) = true := by
  induction l₁ with
  | nil => simp [List.isPrefixOf]
  | cons c cs ih => simp [List.isPrefixOf, ih]

theorem splitFirst_append (p : Char → Bool) (a b : List Char) (d : Char)
    (ha : ∀ ch ∈ a, p ch = false) (hd : p d = true) :
    splitFirst p (a ++ d :: b) = some (a, b) := by
  induction a with
  | nil => simp [splitFirst, hd]
  | cons c cs ih =>
      have hc : p c = false := ha c (List.mem_cons_self c cs)
      have ih' := ih (fun ch hch => ha ch (List.mem_cons_of_mem c hch))
      simp [splitFirst, hc, ih']

theorem splitLast_append (p : Char → Bool) (a b : List Char) (d : Char)
    (hb : ∀ ch ∈ b, p ch = false) (hd : p d = true) :
    splitLast p (a ++ d :: b) = some (a, b) := by
  unfold splitLast
  have hrev : (a ++ d :: b).reverse = b.reverse ++ d :: a.reverse := by
    simp [List.reverse_append]
  rw [hrev, splitFirst_append p b.reverse a.reverse d
    (fun ch hch => hb ch (List.mem_reverse.mp hch)) hd]
  simp

/-- A string free of the URL delimiter characters `:`, `@`, `/`. -/
def urlSafe (s : String) : Prop :=
  ∀ ch ∈ s.data, ch ≠ ':' ∧ ch ≠ '@' ∧ ch ≠ '/'

instance urlSafeDecidable (s : String) : Decidable (urlSafe s) :=
  inferInstanceAs (Decidable (∀ ch ∈ s.data, ch ≠ ':' ∧ ch ≠ '@' ∧ ch ≠ '/'))

/-- C9 amended: for every configuration whose user, password and host
are free of the URL delimiters `:`, `@`, `/`, rendering the connection URL
and parsing it back recovers exactly the original user, host, port and
database name (and password).  Without that restriction the round trip can
fail, as the separate counterexample shows. -/
theorem url_round_trip (c : BaseDatabaseConfig)
    (hu : urlSafe c.user) (hp : urlSafe c.password) (hh : urlSafe c.host)
    (hpt : urlSafe (Nat.repr c.port)) :
    parseUrl (renderUrl c) =
      some { user := c.user, password := c.password, host := c.host,
             portStr := Nat.repr c.port, dbName := c.name } := by
  have hdata : (renderUrl c).data =
      "postgresql://".data ++
        (((c.user.data ++ ':' :: c.password.data) ++
          '@' :: (c.host.data ++ ':' :: (Nat.repr c.port).data)) ++
          '/' :: c.name.data) := by
    simp [renderUrl, String.data_append]
  have hA : ∀ ch ∈ ((c.user.data ++ ':' :: c.password.data) ++
      '@' :: (c.host.data ++ ':' :: (Nat.repr c.port).data)),
      (ch == '/') = false := by
    intro ch hch
    simp only [List.mem_append, List.mem_cons] at hch
    rcases hch with (h | rfl | h) | rfl | (h | rfl | h)
    · exact beq_eq_false_iff_ne.mpr (hu ch h).2.2
    · decide
    · exact beq_eq_false_iff_ne.mpr (hp ch h).2.2
    · decide
    · exact beq_eq_false_iff_ne.mpr (hh ch h).2.2
    · decide
    · exact beq_eq_false_iff_ne.mpr (hpt ch h).2.2
  have hB : ∀ ch ∈ (c.host.data ++ ':' :: (Nat.repr c.port).data),
      (ch == '@') = false := by
    intro ch hch
    simp only [List.mem_append, List.mem_cons] at hch
    rcases hch with h | rfl | h
    · exact beq_eq_false_iff_ne.mpr (hh ch h).2.1
    · decide
    · exact beq_eq_false_iff_ne.mpr (hpt ch h).2.1
  have hC : ∀ ch ∈ c.user.data, (ch == ':') = false := by
    intro ch h
    exact beq_eq_false_iff_ne.mpr (hu ch h).1
  have hD : ∀ ch ∈ (Nat.repr c.port).data, (ch == ':') = false := by
    intro ch h
    exact beq_eq_false_iff_ne.mpr (hpt ch h).1
  have e1 := splitFirst_append (fun ch => ch == '/')
    ((c.user.data ++ ':' :: c.password.data) ++
      '@' :: (c.host.data ++ ':' :: (Nat.repr c.port).data))
    c.name.data '/' hA (by decide)
  have e2 := splitLast_append (fun ch => ch == '@')
    (c.user.data ++ ':' :: c.password.data)
    (c.host.data ++ ':' :: (Nat.repr c.port).data) '@' hB (by decide)
  have e3 := splitFirst_append (fun ch => ch == ':')
    c.user.data c.password.data ':' hC (by decide)
  have e4 := splitLast_append (fun ch => ch == ':')
    c.host.data (Nat.repr c.port).data ':' hD (by decide)
  have hmk : ∀ s : String, String.mk s.data = s := fun _ => rfl
  simp only [parseUrl, hdata, isPrefixOf_append_self, if_true,
    List.drop_left, e1, e2, e3, e4, hmk]

/-- A delimiter-free configuration for the round-trip witness. -/
def roundTripCfg : BaseDatabaseConfig :=
  { name := "mydb", user := "admin", password := "pw0",
    host := "localhost", port := 5432, dbAlias := "default" }

/-- Witness for C9's amended theorem at a concrete configuration. -/
theorem url_round_trip_witness :
    urlSafe roundTripCfg.user ∧ urlSafe roundTripCfg.password ∧
    urlSafe roundTripCfg.host ∧
    urlSafe (Nat.repr roundTripCfg.port) ∧
    parseUrl (renderUrl roundTripCfg) =
      some { user := roundTripCfg.user, password := roundTripCfg.password,
             host := roundTripCfg.host, portStr := Nat.repr roundTripCfg.port,
             dbName := roundTripCfg.name } :=
  ⟨by decide, by decide, by decide, by decide,
   url_round_trip roundTripCfg (by decide) (by decide) (by decide)
     (by decide)⟩

/-- A configuration successfully built from environment values whose user
contains a `:`; construction succeeds because the field validators only
reject empty values. -/
def colonUserEnv : Environ :=
  { vars := [("DB_NAME", "mydb"), ("DB_USER", "u:v"), ("DB_PASSWORD", "p")],
    dbAliases := none }

/-- The config the loader builds from `colonUserEnv`. -/
def colonUserCfg : BaseDatabaseConfig :=
  { name := "mydb", user := "u:v", password := "p",
    host := "localhost", port := 5432, dbAlias := "default" }

/-- Counterexample to C9: the environment `colonUserEnv` successfully
builds a config whose user is `u:v`, but rendering its connection URL and
parsing it back yields user `u` (the first `:` in the userinfo is taken as
the user/password separator), not the original `u:v`. -/
theorem url_round_trip_counterexample :
    multiLoadDatabases colonUserEnv = Except.ok [("default", colonUserCfg)] ∧
    parseUrl (renderUrl colonUserCfg) =
      some { user := "u", password := "v:p", host := "localhost",
             portStr := "5432", dbName := "mydb" } ∧
    ("u" : String) ≠ "u:v" := by
  refine ⟨by decide, by decide, by decide⟩
